import Mathlib

/-!
Shallow embedding of the sm_speaker audio pipeline.

The development models the Python sources of the repository:
* `src/audio/recorder.py` — the `PyRecorder` class: energy calibration
  (`calibrate_energy_threshold`), speech detection (`is_speech`) and the
  VAD capture loop (`record_question`), together with the stream lifecycle
  (`start_stream` / `stop_stream`) and the device-error budget.
* `src/aiclient/conversation.py` — `ConversationClient.process_audio`:
  termination-sentinel handling on the generated reply.
* `src/core.py` — `SpeakerCore.run` (wake-listening fault counter) and
  `SpeakerCore.process_conversation` (silence counter loop).

Numeric values computed by numpy/scipy in Python floating point are
modelled over `ℚ` (and `ℝ` for the logarithmic SNR); the scipy bandpass
filter `lfilter(butter(...))` is an opaque DSP primitive, so it is kept
as an explicit parameter `filt : List Int → Option (List ℚ)` of every
function that applies it — a `none` result stands for a raised numeric
exception inside filtering/energy computation.  Byte buffers are
`List Nat` (one entry per byte), decoded to int16 samples exactly as
`np.frombuffer(frame, dtype=np.int16)` does.
-/

/-- Decode one little-endian int16 sample from two bytes, as
`np.frombuffer(..., dtype=np.int16)` does. -/
def int16OfBytes (lo hi : Nat) : Int :=
  let v : Nat := lo % 256 + 256 * (hi % 256)
  if v < 32768 then (v : Int) else (v : Int) - 65536

/-- Model of `np.frombuffer(frame, dtype=np.int16)`: pairs the byte list
into int16 samples; fails (raises `ValueError` in Python) when the buffer
length is not a multiple of the 2-byte item size. -/
def frombuffer : List Nat → Option (List Int)
  | [] => some []
  | [_] => none
  | lo :: hi :: rest => (frombuffer rest).map (int16OfBytes lo hi :: ·)

/-- Per-frame energy of a filtered frame:
`np.sum(filtered_audio**2) / len(filtered_audio)` in
`recorder.py` (both `calibrate_energy_threshold` and `is_speech`). -/
def frameEnergyOf (xs : List ℚ) : ℚ :=
  (xs.map fun x => x ^ 2).sum / (xs.length : ℚ)

/-- The abstract bandpass filter: `apply_bandpass_filter` in `recorder.py`
is scipy's `lfilter` with `butter(5, [300/8000, 3000/8000], btype='band')`
coefficients; its floating-point output is kept opaque.  `none` models a
numeric exception raised during filtering. -/
abbrev BandpassFilter : Type := List Int → Option (List ℚ)

/-- Energy of one raw audio frame: decode the byte buffer, bandpass-filter
it, square-sum-normalize.  `none` when decoding or filtering raises. -/
def frameEnergy (filt : BandpassFilter) (frame : List Nat) : Option ℚ :=
  ((frombuffer frame).bind filt).map frameEnergyOf

/-- Model of `np.median` on a list of rationals: sort ascending, take the
middle element for odd length, the mean of the two middle elements for
even length.  (Value on the empty list is an unused junk value `0`.) -/
def npMedian (xs : List ℚ) : ℚ :=
  let s := List.insertionSort (fun a b : ℚ => a ≤ b) xs
  let n := xs.length
  if n % 2 = 1 then s.getD (n / 2) 0
  else (s.getD (n / 2 - 1) 0 + s.getD (n / 2) 0) / 2

/-- The tiered multiplier of `calibrate_energy_threshold`
(`recorder.py`, lines 122-127). -/
def tierMultiplier (silence_energy : ℚ) : ℚ :=
  if silence_energy < 1000 then 2
  else if silence_energy < 10000 then 5 / 2
  else 3

/-- State of a `PyRecorder` instance (`recorder.py` `__init__`): the
calibration fields start uninitialized (`None`), the device-error counter
at `0`, and no stream is open. -/
structure PyRecorder where
  stream_open : Bool
  energy_threshold : Option ℚ
  silence_energy : Option ℚ
  device_error_count : Nat
deriving DecidableEq, Repr

/-- `PyRecorder.__init__`: `stream = None`, `energy_threshold = None`,
`silence_energy = None`, `device_error_count = 0`. -/
def PyRecorder.init : PyRecorder :=
  { stream_open := false
    energy_threshold := none
    silence_energy := none
    device_error_count := 0 }

/-- `self.max_device_errors = 3` in `PyRecorder.__init__`. -/
def max_device_errors : Nat := 3

/-- `self.SNR_THRESHOLD = 10` in `PyRecorder.__init__`. -/
def SNR_THRESHOLD : ℚ := 10

/-- `self.NOISE_FLOOR = 100` in `PyRecorder.__init__`. -/
def NOISE_FLOOR : ℚ := 100

/-- `self.ENERGY_SCALE = 1.0` in `PyRecorder.__init__`. -/
def ENERGY_SCALE : ℚ := 1

/-- `PyRecorder.calibrate_energy_threshold` (`recorder.py`, lines
107-137): compute the per-frame energies of the bandpass-filtered
frames; on success set `silence_energy` to their median and
`energy_threshold` to median times the tiered multiplier; on any raised
exception fall back to `silence_energy = 1000`,
`energy_threshold = 3000`. -/
def calibrate_energy_threshold (filt : BandpassFilter) (st : PyRecorder)
    (audio_frames : List (List Nat)) : PyRecorder :=
  match audio_frames.mapM (frameEnergy filt) with
  | some energy_levels =>
      let s := npMedian energy_levels
      { st with
        silence_energy := some s
        energy_threshold := some (s * tierMultiplier s) }
  | none =>
      { st with
        silence_energy := some 1000
        energy_threshold := some 3000 }

/-- `PyRecorder.is_speech` (`recorder.py`, lines 171-197) as a
proposition (the SNR comparison lives in `ℝ`): `False` when
`energy_threshold is None`; otherwise decode and filter the frame
(a failure is caught and yields `False`, as is the `TypeError` from
`max(None, 100)` when `silence_energy` is unset), compute the signal
energy, the noise floor `max(silence_energy, NOISE_FLOOR)` and
`snr = 10*log10(signal/noise)` (guarded by `noise_floor > 0`), and gate
on `signal_energy > energy_threshold * ENERGY_SCALE and
snr > SNR_THRESHOLD`. -/
def is_speech (filt : BandpassFilter) (st : PyRecorder)
    (audio_frame : List Nat) : Prop :=
  match st.energy_threshold with
  | none => False
  | some thr =>
    match st.silence_energy with
    | none => False
    | some sil =>
      match (frombuffer audio_frame).bind filt with
      | none => False
      | some filtered_audio =>
        let signal_energy := frameEnergyOf filtered_audio
        let noise_floor := max sil NOISE_FLOOR
        let snr : ℝ :=
          if 0 < noise_floor
          then 10 * Real.logb 10 ((signal_energy : ℝ) / (noise_floor : ℝ))
          else 0
        signal_energy > thr * ENERGY_SCALE ∧ snr > (SNR_THRESHOLD : ℝ)

/-! ### The VAD capture loop (`PyRecorder.record_question`) -/

/-- `self.CHUNK_DURATION_MS = 30` in `PyRecorder.__init__`. -/
def CHUNK_DURATION_MS : Nat := 30

/-- `self.CHUNKS_PER_SECOND = 1000 // self.CHUNK_DURATION_MS` — Python
floor division, hence `33`. -/
def CHUNKS_PER_SECOND : Nat := 1000 / CHUNK_DURATION_MS

/-- `silence_duration = 2` (seconds) in `record_question`. -/
def silence_duration : Nat := 2

/-- `max_duration = 30` (seconds) in `record_question`. -/
def max_duration : Nat := 30

/-- `max_silent_chunks = int(silence_duration * self.CHUNKS_PER_SECOND)`
in `record_question` — `66`. -/
def max_silent_chunks : Nat := silence_duration * CHUNKS_PER_SECOND

/-- One `self.stream.read(...)` event of the capture loop: either a chunk
successfully read (tagged with the value of `is_speech(data)` on it — the
detector is pure, so its verdict is part of the input script) or a raised
`OSError`/`IOError`. -/
inductive ReadResult where
  | chunk (speech : Bool)
  | readError
deriving DecidableEq, Repr

/-- Outcome of the `while True` read loop of `record_question`:
`utterance n` — the loop hit a `break` with `n` chunks accumulated in
`frames` (the returned utterance is their concatenation);
`noUtterance` — the loop executed a `return None`;
`starved` — the input script was exhausted while the loop would still be
reading (the real code would block on the next `stream.read`). -/
inductive RecOutcome where
  | utterance (chunks : Nat)
  | noUtterance
  | starved
deriving DecidableEq, Repr

/-- The body of `record_question`'s `while True` loop (`recorder.py`,
lines 222-259), one constructor case per read event.  Arguments mirror the
Python locals: accumulated `frames` (as a chunk count), `silent_chunks`,
`is_speaking`, `total_chunks`, and the instance field
`device_error_count`.  Returns the loop outcome and the final
`device_error_count`. -/
def recordLoop : List ReadResult → Nat → Nat → Bool → Nat → Nat →
    RecOutcome × Nat
  | [], _, _, _, _, errs => (.starved, errs)
  | .readError :: rest, frames, silent, speaking, total, errs =>
      if max_device_errors ≤ errs + 1 then (.noUtterance, errs + 1)
      else recordLoop rest frames silent speaking total (errs + 1)
  | .chunk sp :: rest, frames, silent, speaking, total, errs =>
      let frames' := frames + 1
      let total' := total + 1
      let speaking' := speaking || sp
      let silent' := if sp then 0 else silent + 1
      if speaking' then
        if max_silent_chunks < silent' then (.utterance frames', errs)
        else if max_duration * CHUNKS_PER_SECOND < total' then
          (.utterance frames', errs)
        else recordLoop rest frames' silent' speaking' total' errs
      else
        if 5 * CHUNKS_PER_SECOND < total' then (.noUtterance, errs)
        else if max_duration * CHUNKS_PER_SECOND < total' then
          (.utterance frames', errs)
        else recordLoop rest frames' silent' speaking' total' errs

/-- `PyRecorder.start_stream`: opens the stream when `self.stream` is
`None` or inactive; a no-op otherwise. -/
def start_stream (st : PyRecorder) : PyRecorder :=
  if st.stream_open then st else { st with stream_open := true }

/-- `PyRecorder.stop_stream`: closes the stream and sets `self.stream`
to `None`; idempotent. -/
def stop_stream (st : PyRecorder) : PyRecorder :=
  { st with stream_open := false }

/-- `PyRecorder.record_question` on a given read script: opens the
stream, runs the read loop from fresh local state
(`frames = []`, `silent_chunks = 0`, `is_speaking = False`,
`total_chunks = 0`) with the instance's persistent
`device_error_count`, and — via the `finally` block — always leaves the
stream closed.  Returns the updated recorder state and the loop
outcome. -/
def record_question (st : PyRecorder) (reads : List ReadResult) :
    PyRecorder × RecOutcome :=
  let st₁ := start_stream st
  let r := recordLoop reads 0 0 false 0 st₁.device_error_count
  (stop_stream { st₁ with device_error_count := r.2 }, r.1)

/-! ### Sentinel handling (`ConversationClient.process_audio`) and the
conversation loop (`SpeakerCore.process_conversation`) -/

/-- Python text is modelled as a list of characters. -/
abbrev PyStr : Type := List Char

/-- The termination sentinel of `conversation.py`:
`'[END_OF_CONVERSATION]'`. -/
def eocSentinel : PyStr := "[END_OF_CONVERSATION]".data

/-- Model of Python's substring test `pat in s`. -/
def containsSub (s pat : PyStr) : Bool :=
  match s with
  | [] => pat.isEmpty
  | _ :: s' => pat.isPrefixOf s || containsSub s' pat

/-- Fuel-indexed worker for `pyReplace`: replaces non-overlapping
occurrences of `pat` left to right, as Python's `str.replace` does.
For nonempty `pat`, every recursive call consumes at least one character
of `s`, so fuel `s.length` suffices. -/
def pyReplaceAux (pat rep : PyStr) : Nat → PyStr → PyStr
  | _, [] => []
  | 0, s => s
  | fuel + 1, c :: s' =>
      if pat.isPrefixOf (c :: s') then
        rep ++ pyReplaceAux pat rep fuel ((c :: s').drop pat.length)
      else c :: pyReplaceAux pat rep fuel s'

/-- Model of Python's `s.replace(pat, rep)` (only used with the nonempty
sentinel as `pat`; for empty `pat` the model returns `s` unchanged). -/
def pyReplace (s pat rep : PyStr) : PyStr :=
  if pat.isEmpty then s else pyReplaceAux pat rep s.length s

/-- Model of Python's `s.strip()`: drop leading and trailing
whitespace. -/
def pyStrip (s : PyStr) : PyStr :=
  (((s.dropWhile Char.isWhitespace).reverse).dropWhile
    Char.isWhitespace).reverse

/-- Observable actions of one conversation turn, used to state which
external calls happen and in which order. -/
inductive Event where
  | recordCall
  | serviceCall
  | speak (text : PyStr)
  | errorCue
  | stopDisplay
  | fadeInLogo
deriving DecidableEq, Repr

/-- `ConversationClient.process_audio` (`conversation.py`, lines
193-226), abstracted over the speech-to-text/LLM round trip: given the
text returned by `generate_ai_reply`, compute
`conversation_ended = '[END_OF_CONVERSATION]' in content_response`,
strip the sentinel and surrounding whitespace, then — if the remaining
text is non-empty — synthesize and play it and return
`conversation_ended`; otherwise play the error cue and return `False`. -/
def process_audio (reply : PyStr) : Bool × List Event :=
  let conversation_ended := containsSub reply eocSentinel
  let content_response := pyStrip (pyReplace reply eocSentinel [])
  if content_response.isEmpty then (false, [.errorCue])
  else (conversation_ended, [.speak content_response])

/-- One iteration's input to `SpeakerCore.process_conversation`: either
`record_question` returned no frames, or it returned frames and the
ConversationService round trip produced `reply` as the generated
answer. -/
inductive TurnInput where
  | noFrames
  | frames (reply : PyStr)
deriving DecidableEq, Repr

/-- `max_silence = 2` in `SpeakerCore.process_conversation`. -/
def max_silence : Nat := 2

/-- One iteration of the `process_conversation` loop (`core.py`, lines
168-217): an empty recording increments `silence_count` and deactivates
the conversation once it reaches `max_silence`; a non-empty recording
resets `silence_count` to `0`, calls the conversation service
(`process_audio`) and deactivates when it reports the conversation
ended.  Returns the new `silence_count`, the new `conversation_active`,
and the events of the iteration. -/
def convStep (silence_count : Nat) : TurnInput → Nat × Bool × List Event
  | .noFrames =>
      (silence_count + 1, decide (silence_count + 1 < max_silence),
        [.recordCall])
  | .frames reply =>
      let r := process_audio reply
      (0, !r.1, [.recordCall, .serviceCall] ++ r.2)

/-- The `while conversation_active` loop of `process_conversation`,
driven by a script of turn inputs (an exhausted script models the exit
event being set).  Collects the events of all executed iterations. -/
def convLoop : List TurnInput → Nat → List Event
  | [], _ => []
  | inp :: rest, silence_count =>
      let r := convStep silence_count inp
      r.2.2 ++ if r.2.1 then convLoop rest r.1 else []

/-- `SpeakerCore.process_conversation` (`core.py`, lines 161-225): run
the loop with `silence_count = 0`; the `finally` block always stops the
listening display and fades the idle logo back in. -/
def process_conversation (inputs : List TurnInput) : List Event :=
  convLoop inputs 0 ++ [.stopDisplay, .fadeInLogo]

/-! ### The wake-listening loop (`SpeakerCore.run`) -/

/-- One iteration's input to `SpeakerCore.run`'s wake-listening loop:
the awaited wake-word task either succeeded (with a trigger that keeps
the loop running), succeeded with the exit trigger
(`WakeWordType.OTHER` with `res` falsy), or raised an exception
(a fault). -/
inductive WakeIter where
  | success
  | exitSignal
  | fault
deriving DecidableEq, Repr

/-- How a run of the wake-listening loop ended:
`reinit` — the fault budget was exceeded and the loop broke out to be
reinitialized; `shutdown` — the exit trigger was received;
`stillListening n` — the script is exhausted with the loop still alive
and the fault counter at `n`. -/
inductive RunExit where
  | reinit
  | shutdown
  | stillListening (device_retry_count : Nat)
deriving DecidableEq, Repr

/-- The `while not is_exit_event_set()` loop of `SpeakerCore.run`
(`core.py`, lines 59-109): a successful wake-word iteration resets
`device_retry_count` to `0`; an exception increments it and the loop
breaks out for reinitialization when the counter exceeds `3`; the
`WakeWordType.OTHER` result breaks out for shutdown. -/
def runLoop : List WakeIter → Nat → RunExit
  | [], device_retry_count => .stillListening device_retry_count
  | .success :: rest, _ => runLoop rest 0
  | .exitSignal :: _, _ => .shutdown
  | .fault :: rest, device_retry_count =>
      if 3 < device_retry_count + 1 then .reinit
      else runLoop rest (device_retry_count + 1)

/-! ### Concrete instances used by the evaluation witnesses -/

/-- A concrete stand-in bandpass filter for witness evaluation: the
identity DSP (casts the int16 samples to rationals, never fails). -/
def idFilt : BandpassFilter := fun xs => some (xs.map fun i => (i : ℚ))

/-- A concrete always-failing filter: models a numeric exception raised
on every frame. -/
def failFilt : BandpassFilter := fun _ => none

/-- A recorder state with a threshold but no silence baseline (used to
exercise the `max(None, ...)` failure path of `is_speech`). -/
def recorderNoBaseline : PyRecorder :=
  { stream_open := false
    energy_threshold := some 3000
    silence_energy := none
    device_error_count := 0 }

/-! ### Claims about calibration and speech detection -/

/-- C2: for every non-empty list of sample frames whose filtered
energies are computed without failure, calibration sets `silence_energy`
to the median of the per-frame energies of the bandpass-filtered frames,
selects the multiplier by tier (2.0 below 1000, 2.5 below 10000, else
3.0), and sets the threshold to their product. -/
theorem calibrate_median_tier (filt : BandpassFilter) (st : PyRecorder)
    (audio_frames : List (List Nat)) (energy_levels : List ℚ)
    (hne : audio_frames ≠ [])
    (hcal : audio_frames.mapM (frameEnergy filt) = some energy_levels) :
    (calibrate_energy_threshold filt st audio_frames).silence_energy
        = some (npMedian energy_levels) ∧
    (calibrate_energy_threshold filt st audio_frames).energy_threshold
        = some (npMedian energy_levels * tierMultiplier (npMedian energy_levels)) ∧
    tierMultiplier (npMedian energy_levels)
        = (if npMedian energy_levels < 1000 then 2
           else if npMedian energy_levels < 10000 then 5 / 2 else 3) := by
  unfold calibrate_energy_threshold
  rw [hcal]
  simp [tierMultiplier]

/-- Witness for C2: a one-frame silent sample calibrates to the median
energy 0, tier multiplier 2, threshold 0. -/
theorem calibrate_median_tier_witness :
    ([[0, 0]] : List (List Nat)) ≠ [] ∧
    ([[0, 0]] : List (List Nat)).mapM (frameEnergy idFilt) = some [0] ∧
    (calibrate_energy_threshold idFilt PyRecorder.init [[0, 0]]).silence_energy
        = some (npMedian [0]) ∧
    (calibrate_energy_threshold idFilt PyRecorder.init [[0, 0]]).energy_threshold
        = some (npMedian [0] * tierMultiplier (npMedian [0])) := by
  have h : ([[0, 0]] : List (List Nat)).mapM (frameEnergy idFilt) = some [0] := by
    simp [List.mapM, List.mapM.loop, frameEnergy, frombuffer, idFilt,
      frameEnergyOf, int16OfBytes]
  exact ⟨by decide, h,
    (calibrate_median_tier idFilt PyRecorder.init [[0, 0]] [0] (by decide) h).1,
    (calibrate_median_tier idFilt PyRecorder.init [[0, 0]] [0] (by decide) h).2.1⟩

/-- C8: after any call to `calibrate_energy_threshold` both calibration
fields are defined, and whenever the energy computation fails the fixed
defaults `silence_energy = 1000`, `energy_threshold = 3000` are
installed. -/
theorem calibrate_fallback (filt : BandpassFilter) (st : PyRecorder)
    (audio_frames : List (List Nat)) :
    (calibrate_energy_threshold filt st audio_frames).energy_threshold.isSome
        = true ∧
    (calibrate_energy_threshold filt st audio_frames).silence_energy.isSome
        = true ∧
    (audio_frames.mapM (frameEnergy filt) = none →
      (calibrate_energy_threshold filt st audio_frames).silence_energy
          = some 1000 ∧
      (calibrate_energy_threshold filt st audio_frames).energy_threshold
          = some 3000) := by
  unfold calibrate_energy_threshold
  cases h : audio_frames.mapM (frameEnergy filt) <;> simp [h]

/-- Witness for C8: a filter that raises on every frame drives
calibration into the default fallback. -/
theorem calibrate_fallback_witness :
    ([[0, 0]] : List (List Nat)).mapM (frameEnergy failFilt) = none ∧
    (calibrate_energy_threshold failFilt PyRecorder.init [[0, 0]]).silence_energy
        = some 1000 ∧
    (calibrate_energy_threshold failFilt PyRecorder.init [[0, 0]]).energy_threshold
        = some 3000 := by
  have h : ([[0, 0]] : List (List Nat)).mapM (frameEnergy failFilt) = none := by
    simp [List.mapM, List.mapM.loop, frameEnergy, frombuffer, failFilt]
  exact ⟨h, ((calibrate_fallback failFilt PyRecorder.init [[0, 0]]).2.2 h).1,
    ((calibrate_fallback failFilt PyRecorder.init [[0, 0]]).2.2 h).2⟩

/-- C9: `is_speech` reports no speech (rather than raising) when the
threshold is uninitialized, when the silence baseline is uninitialized,
and when decoding or filtering the frame fails. -/
theorem is_speech_never_raises (filt : BandpassFilter) (st : PyRecorder)
    (audio_frame : List Nat) :
    (st.energy_threshold = none → ¬ is_speech filt st audio_frame) ∧
    (st.silence_energy = none → ¬ is_speech filt st audio_frame) ∧
    ((frombuffer audio_frame).bind filt = none →
      ¬ is_speech filt st audio_frame) := by
  refine ⟨fun h => ?_, fun h => ?_, fun h => ?_⟩
  · simp [is_speech, h]
  · cases hthr : st.energy_threshold <;> simp [is_speech, hthr, h]
  · cases hthr : st.energy_threshold with
    | none => simp [is_speech, hthr]
    | some thr =>
        cases hsil : st.silence_energy <;> simp [is_speech, hthr, hsil, h]

/-- Witness for C9: the fresh recorder rejects every frame, a recorder
without a silence baseline rejects, and an undecodable (odd-length)
frame is rejected. -/
theorem is_speech_never_raises_witness :
    PyRecorder.init.energy_threshold = none ∧
    ¬ is_speech idFilt PyRecorder.init [0, 0] ∧
    recorderNoBaseline.silence_energy = none ∧
    ¬ is_speech idFilt recorderNoBaseline [0, 0] ∧
    (frombuffer [0]).bind idFilt = none ∧
    ¬ is_speech idFilt recorderNoBaseline [0] :=
  ⟨rfl, (is_speech_never_raises idFilt PyRecorder.init [0, 0]).1 rfl,
    rfl, (is_speech_never_raises idFilt recorderNoBaseline [0, 0]).2.1 rfl,
    by simp [frombuffer],
    (is_speech_never_raises idFilt recorderNoBaseline [0]).2.2
      (by simp [frombuffer])⟩

/-- C1: after a successful calibration, `is_speech` holds on a decodable
and filterable frame exactly when the filtered frame energy exceeds
`energy_threshold * ENERGY_SCALE` and the SNR
`10*log10(signalEnergy / max(silenceEnergy, NOISE_FLOOR))` exceeds the
10 dB threshold. -/
theorem is_speech_gate (filt : BandpassFilter) (st : PyRecorder)
    (audio_frames : List (List Nat)) (energy_levels : List ℚ)
    (hcal : audio_frames.mapM (frameEnergy filt) = some energy_levels)
    (audio_frame : List Nat) (filtered_audio : List ℚ)
    (hfa : (frombuffer audio_frame).bind filt = some filtered_audio) :
    is_speech filt (calibrate_energy_threshold filt st audio_frames)
        audio_frame ↔
      (frameEnergyOf filtered_audio >
          npMedian energy_levels * tierMultiplier (npMedian energy_levels)
            * ENERGY_SCALE ∧
        10 * Real.logb 10 ((frameEnergyOf filtered_audio : ℝ) /
            ((max (npMedian energy_levels) NOISE_FLOOR : ℚ) : ℝ))
          > (SNR_THRESHOLD : ℝ)) := by
  have h0 : (0 : ℚ) < max (npMedian energy_levels) NOISE_FLOOR :=
    lt_of_lt_of_le (by norm_num [NOISE_FLOOR]) (le_max_right _ _)
  unfold calibrate_energy_threshold
  rw [hcal]
  simp [is_speech, hfa, h0]

/-- Witness for C1: the silent one-frame calibration with the identity
filter instantiates the gate equivalence on the frame `[0, 0]`. -/
theorem is_speech_gate_witness :
    ([[0, 0]] : List (List Nat)).mapM (frameEnergy idFilt) = some [0] ∧
    (frombuffer [0, 0]).bind idFilt = some [0] ∧
    (is_speech idFilt (calibrate_energy_threshold idFilt PyRecorder.init [[0, 0]])
        [0, 0] ↔
      (frameEnergyOf [0] > npMedian [0] * tierMultiplier (npMedian [0])
          * ENERGY_SCALE ∧
        10 * Real.logb 10 ((frameEnergyOf [0] : ℝ) /
            ((max (npMedian [0]) NOISE_FLOOR : ℚ) : ℝ))
          > (SNR_THRESHOLD : ℝ))) := by
  have h : ([[0, 0]] : List (List Nat)).mapM (frameEnergy idFilt) = some [0] := by
    simp [List.mapM, List.mapM.loop, frameEnergy, frombuffer, idFilt,
      frameEnergyOf, int16OfBytes]
  have hfa : (frombuffer [0, 0]).bind idFilt = some [0] := by
    simp [frombuffer, idFilt, int16OfBytes]
  exact ⟨h, hfa, is_speech_gate idFilt PyRecorder.init [[0, 0]] [0] h [0, 0] [0] hfa⟩

/-! ### Claims about the conversation loop -/

/-- C4: an empty recording increments the silence counter and makes no
service call, a non-empty recording resets the counter, and two
consecutive empty recordings from a fresh conversation end the loop with
no ConversationService call at all. -/
theorem conversation_silence_counter :
    (∀ silence_count, convStep silence_count .noFrames
        = (silence_count + 1, decide (silence_count + 1 < max_silence),
            [.recordCall])) ∧
    (∀ silence_count reply,
      (convStep silence_count (.frames reply)).1 = 0) ∧
    (∀ rest, convLoop (.noFrames :: .noFrames :: rest) 0
        = [.recordCall, .recordCall]) ∧
    (∀ rest,
      Event.serviceCall ∉ convLoop (.noFrames :: .noFrames :: rest) 0) := by
  refine ⟨fun _ => rfl, fun _ _ => rfl, fun rest => ?_, fun rest => ?_⟩ <;>
    simp [convLoop, convStep, max_silence]

/-- C3 counterexample: a reply consisting solely of the termination
sentinel contains the sentinel, yet the conversation does not end after
that turn — a second turn still makes a second ConversationService
call. -/
theorem sentinel_only_reply_continues :
    containsSub eocSentinel eocSentinel = true ∧
    (process_conversation
        [.frames eocSentinel, .frames "Bye".data]).count .serviceCall = 2 ∧
    (process_conversation
        [.frames eocSentinel, .frames "Bye".data]).count .recordCall = 2 := by
  decide

/-- C3 (amended): if the generated reply contains the termination
sentinel and stripping the sentinel leaves non-empty text, the
conversation ends after exactly that one turn — one recording, one
service call, the stripped text synthesized — and the display is
returned to idle. -/
theorem sentinel_ends_conversation (reply : PyStr) (rest : List TurnInput)
    (hsent : containsSub reply eocSentinel = true)
    (hne : pyStrip (pyReplace reply eocSentinel []) ≠ []) :
    process_conversation (.frames reply :: rest)
      = [.recordCall, .serviceCall,
          .speak (pyStrip (pyReplace reply eocSentinel [])),
          .stopDisplay, .fadeInLogo] := by
  have hempty : (pyStrip (pyReplace reply eocSentinel [])).isEmpty = false := by
    simpa using hne
  simp [process_conversation, convLoop, convStep, process_audio, hsent, hempty]

/-- Witness for the amended C3: a concrete reply carrying text plus the
sentinel ends the conversation after one spoken turn. -/
theorem sentinel_ends_conversation_witness :
    containsSub "Bye[END_OF_CONVERSATION]".data eocSentinel = true ∧
    pyStrip (pyReplace "Bye[END_OF_CONVERSATION]".data eocSentinel []) ≠ [] ∧
    process_conversation
        [.frames "Bye[END_OF_CONVERSATION]".data, .noFrames]
      = [.recordCall, .serviceCall,
          .speak (pyStrip (pyReplace "Bye[END_OF_CONVERSATION]".data
            eocSentinel [])),
          .stopDisplay, .fadeInLogo] :=
  ⟨by decide, by decide,
    sentinel_ends_conversation "Bye[END_OF_CONVERSATION]".data [.noFrames]
      (by decide) (by decide)⟩

/-! ### Claims about the wake-listening loop -/

/-- C5 counterexample: three consecutive faults from a reset counter do
not escalate — the loop is still listening with the counter at 3. -/
theorem three_faults_do_not_escalate :
    runLoop [.fault, .fault, .fault] 0 = .stillListening 3 ∧
    runLoop [.fault, .fault, .fault] 0 ≠ .reinit := by
  decide

/-- C5 (amended): a fourth consecutive fault — the counter exceeding its
maximum of 3 — triggers the single escalation out of the loop to
reinitialization; a successful iteration resets the counter to 0, and a
fault with the counter still within budget merely increments it and
retries. -/
theorem fault_budget_escalation (rest : List WakeIter) (c : Nat) :
    runLoop (.fault :: .fault :: .fault :: .fault :: rest) 0 = .reinit ∧
    runLoop (.success :: rest) c = runLoop rest 0 ∧
    (c + 1 ≤ 3 → runLoop (.fault :: rest) c = runLoop rest (c + 1)) := by
  refine ⟨by simp [runLoop], rfl, fun h => ?_⟩
  simp [runLoop, Nat.not_lt.mpr h]

/-- Witness for the amended C5: four faults escalate, a success resets,
and the first fault from a fresh counter just retries. -/
theorem fault_budget_escalation_witness :
    runLoop [.fault, .fault, .fault, .fault] 0 = .reinit ∧
    runLoop [.success] 5 = runLoop [] 0 ∧
    0 + 1 ≤ 3 ∧
    runLoop [.fault] 0 = runLoop [] (0 + 1) :=
  ⟨(fault_budget_escalation [] 0).1, (fault_budget_escalation [] 5).2.1,
    by decide, (fault_budget_escalation [] 0).2.2 (by decide)⟩

/-! ### Claims about the capture loop bounds and the device-error budget -/

/-- On an all-speech script the capture loop reaches the absolute
maximum duration: as soon as enough chunks are available it returns an
utterance of exactly `max_duration * CHUNKS_PER_SECOND + 1` chunks. -/
theorem recordLoop_allSpeech (reads : List ReadResult)
    (h : ∀ r ∈ reads, r = .chunk true) :
    ∀ (t e : Nat) (sp : Bool), t ≤ max_duration * CHUNKS_PER_SECOND →
      max_duration * CHUNKS_PER_SECOND + 1 ≤ t + reads.length →
      recordLoop reads t 0 sp t e
        = (.utterance (max_duration * CHUNKS_PER_SECOND + 1), e) := by
  have hc : max_duration * CHUNKS_PER_SECOND = 990 := rfl
  induction reads with
  | nil =>
      intro t e sp ht hlen
      rw [hc] at ht hlen
      simp at hlen
      omega
  | cons r rest ih =>
      intro t e sp ht hlen
      have hr : r = .chunk true := h r (by simp)
      subst hr
      have hrest : ∀ x ∈ rest, x = .chunk true := fun x hx => h x (by simp [hx])
      simp only [recordLoop, Bool.or_true, if_true, if_pos]
      rw [hc] at ht hlen ⊢
      simp only [List.length_cons] at hlen
      by_cases hlast : 990 < t + 1
      · have : t = 990 := by omega
        subst this
        norm_num [max_silent_chunks, silence_duration, CHUNKS_PER_SECOND,
          CHUNK_DURATION_MS]
      · have h1 : t + 1 ≤ 990 := by omega
        have h2 : 990 + 1 ≤ t + 1 + rest.length := by omega
        have := ih hrest (t + 1) e true (by omega) (by rw [hc]; omega)
        rw [hc] at this
        simp only [max_silent_chunks, silence_duration, CHUNKS_PER_SECOND,
          CHUNK_DURATION_MS]
        norm_num
        rw [if_neg hlast]
        exact this

/-- Running a nonempty block of speech chunks from matching
`frames = total_chunks` state advances the loop to a speaking state with
zeroed trailing silence, as long as the maximum duration is not hit. -/
theorem recordLoop_speechRun (rest : List ReadResult) :
    ∀ (k : Nat), 1 ≤ k → ∀ (t s e : Nat) (sp : Bool),
      t + k ≤ max_duration * CHUNKS_PER_SECOND →
      recordLoop (List.replicate k (.chunk true) ++ rest) t s sp t e
        = recordLoop rest (t + k) 0 true (t + k) e := by
  have hc : max_duration * CHUNKS_PER_SECOND = 990 := rfl
  intro k
  induction k with
  | zero => omega
  | succ k ih =>
      intro _ t s e sp ht
      rw [hc] at ht
      simp only [List.replicate_succ, List.cons_append, recordLoop,
        Bool.or_true, if_true]
      have hnot : ¬ (max_duration * CHUNKS_PER_SECOND < t + 1) := by
        rw [hc]; omega
      simp only [max_silent_chunks, silence_duration, CHUNKS_PER_SECOND,
        CHUNK_DURATION_MS]
      norm_num
      rw [if_neg (by rw [hc] at hnot; exact hnot)]
      cases k with
      | zero => simp
      | succ k' =>
          have := ih (by omega) (t + 1) 0 e true (by rw [hc]; omega)
          rw [this]
          have harith : t + 1 + (k' + 1) = t + (k' + 1 + 1) := by omega
          rw [harith]

/-- From a speaking state, a run of silence chunks that pushes the
trailing-silence counter past `max_silent_chunks` ends the capture with
an utterance, provided the maximum duration is not hit on the way. -/
theorem recordLoop_silenceRun (rest : List ReadResult) :
    ∀ (j : Nat), 1 ≤ j → ∀ (f s t e : Nat),
      s + j = max_silent_chunks + 1 →
      t + j ≤ max_duration * CHUNKS_PER_SECOND →
      recordLoop (List.replicate j (.chunk false) ++ rest) f s true t e
        = (.utterance (f + j), e) := by
  have hc : max_duration * CHUNKS_PER_SECOND = 990 := rfl
  have hm : max_silent_chunks = 66 := rfl
  intro j
  induction j with
  | zero => omega
  | succ j ih =>
      intro _ f s t e hs ht
      rw [hm] at hs
      rw [hc] at ht
      simp only [List.replicate_succ, List.cons_append, recordLoop,
        Bool.true_or, if_true, Bool.false_eq_true, if_false]
      cases j with
      | zero =>
          have : s = 66 := by omega
          subst this
          norm_num [max_silent_chunks, silence_duration, CHUNKS_PER_SECOND,
            CHUNK_DURATION_MS]
      | succ j' =>
          have hlt : ¬ (max_silent_chunks < s + 1) := by rw [hm]; omega
          have hdur : ¬ (max_duration * CHUNKS_PER_SECOND < t + 1) := by
            rw [hc]; omega
          rw [if_neg hlt, if_neg hdur, List.append_eq]
          have := ih (by omega) (f + 1) (s + 1) (t + 1) e
            (by rw [hm]; omega) (by rw [hc]; omega)
          rw [this]
          have harith : f + 1 + (j' + 1) = f + (j' + 1 + 1) := by omega
          rw [harith]

/-- Opening the stream never touches the device-error counter. -/
theorem start_stream_device_errors (st : PyRecorder) :
    (start_stream st).device_error_count = st.device_error_count := by
  unfold start_stream
  split <;> rfl

/-- C6: on an all-speech script long enough, `record_question` stops at
the absolute maximum duration and the utterance is exactly
`max_duration * CHUNKS_PER_SECOND + 1` chunks (one chunk past the
duration cap); on a script with a speech burst followed by trailing
silence, capture ends as soon as the trailing silence exceeds
`max_silent_chunks`, yielding the burst plus `max_silent_chunks + 1`
chunks. -/
theorem record_question_duration_bounds :
    (∀ (st : PyRecorder) (reads : List ReadResult),
      (∀ r ∈ reads, r = .chunk true) →
      max_duration * CHUNKS_PER_SECOND + 1 ≤ reads.length →
      (record_question st reads).2
        = .utterance (max_duration * CHUNKS_PER_SECOND + 1)) ∧
    (∀ (st : PyRecorder) (k : Nat) (rest : List ReadResult), 1 ≤ k →
      k + (max_silent_chunks + 1) ≤ max_duration * CHUNKS_PER_SECOND →
      (record_question st (List.replicate k (.chunk true)
          ++ (List.replicate (max_silent_chunks + 1) (.chunk false)
              ++ rest))).2
        = .utterance (k + (max_silent_chunks + 1))) := by
  constructor
  · intro st reads hall hlen
    unfold record_question
    have := recordLoop_allSpeech reads hall 0 (start_stream st).device_error_count
      false (by omega) (by omega)
    simp [this]
  · intro st k rest hk hbound
    unfold record_question
    have h1 := recordLoop_speechRun
      (List.replicate (max_silent_chunks + 1) (.chunk false) ++ rest) k hk
      0 0 (start_stream st).device_error_count false (by omega)
    have h2 := recordLoop_silenceRun rest (max_silent_chunks + 1) (by omega)
      k 0 k (start_stream st).device_error_count (by omega) (by omega)
    simp only [Nat.zero_add] at h1
    simp [h1, h2]

/-- Witness for C6: a 991-chunk all-speech stream yields a 991-chunk
utterance, and one speech chunk followed by 67 silence chunks yields a
68-chunk utterance. -/
theorem record_question_duration_bounds_witness :
    max_duration * CHUNKS_PER_SECOND + 1
        ≤ (List.replicate (max_duration * CHUNKS_PER_SECOND + 1)
            (ReadResult.chunk true)).length ∧
    (record_question PyRecorder.init
        (List.replicate (max_duration * CHUNKS_PER_SECOND + 1)
          (ReadResult.chunk true))).2
      = .utterance (max_duration * CHUNKS_PER_SECOND + 1) ∧
    1 ≤ 1 ∧
    1 + (max_silent_chunks + 1) ≤ max_duration * CHUNKS_PER_SECOND ∧
    (record_question PyRecorder.init (List.replicate 1 (.chunk true)
        ++ (List.replicate (max_silent_chunks + 1) (.chunk false) ++ []))).2
      = .utterance (1 + (max_silent_chunks + 1)) :=
  ⟨by simp,
    record_question_duration_bounds.1 PyRecorder.init _
      (fun r hr => List.eq_of_mem_replicate hr) (by simp),
    by decide, by decide,
    record_question_duration_bounds.2 PyRecorder.init 1 [] (by decide)
      (by decide)⟩

/-- The capture loop never decreases the device-error counter. -/
theorem recordLoop_errs_mono (reads : List ReadResult) :
    ∀ (frames silent : Nat) (speaking : Bool) (total errs : Nat),
      errs ≤ (recordLoop reads frames silent speaking total errs).2 := by
  induction reads with
  | nil => intro f s sp t e; simp [recordLoop]
  | cons r rest ih =>
      intro f s sp t e
      cases r with
      | readError =>
          simp only [recordLoop]
          split
          · simp
          · exact le_trans (Nat.le_succ e) (ih f s sp t (e + 1))
      | chunk b =>
          simp only [recordLoop]
          repeat' split
          all_goals first | simp | exact ih _ _ _ _ e

/-- C7: a transient read error increments the persistent device-error
counter; while the counter stays below the budget the loop continues,
and once it reaches the budget the recording aborts with no utterance.
`record_question` always leaves the stream fully closed, and the next
`start_stream` on a closed stream reopens the device. -/
theorem read_error_budget (rest : List ReadResult) (frames silent : Nat)
    (speaking : Bool) (total errs : Nat) :
    (errs + 1 < max_device_errors →
      recordLoop (.readError :: rest) frames silent speaking total errs
        = recordLoop rest frames silent speaking total (errs + 1)) ∧
    (max_device_errors ≤ errs + 1 →
      recordLoop (.readError :: rest) frames silent speaking total errs
        = (.noUtterance, errs + 1)) ∧
    (∀ (st : PyRecorder) (reads : List ReadResult),
      (record_question st reads).1.stream_open = false) ∧
    (∀ st : PyRecorder, st.stream_open = false →
      (start_stream st).stream_open = true) := by
  refine ⟨fun h => ?_, fun h => ?_, fun st reads => ?_, fun st h => ?_⟩
  · simp only [recordLoop]
    rw [if_neg (by omega)]
  · simp only [recordLoop]
    rw [if_pos h]
  · simp [record_question, stop_stream]
  · simp [start_stream, h]

/-- Witness for C7: a first error just retries, a third error (budget
reached) aborts, and the recorder ends closed and reopenable. -/
theorem read_error_budget_witness :
    0 + 1 < max_device_errors ∧
    recordLoop [.readError] 0 0 false 0 0 = recordLoop [] 0 0 false 0 (0 + 1) ∧
    max_device_errors ≤ 2 + 1 ∧
    recordLoop [.readError] 0 0 false 0 2 = (.noUtterance, 2 + 1) ∧
    (record_question PyRecorder.init []).1.stream_open = false ∧
    PyRecorder.init.stream_open = false ∧
    (start_stream PyRecorder.init).stream_open = true :=
  ⟨by decide, (read_error_budget [] 0 0 false 0 0).1 (by decide),
    by decide, (read_error_budget [] 0 0 false 0 2).2.1 (by decide),
    (read_error_budget [] 0 0 false 0 0).2.2.1 PyRecorder.init [],
    rfl, (read_error_budget [] 0 0 false 0 0).2.2.2 PyRecorder.init rfl⟩

/-- C10: no recorder operation ever resets or decreases the
device-error counter — calibration and the stream lifecycle leave it
unchanged and `record_question` can only grow it — and once the counter
has reached the budget of `max_device_errors`, any further transient
read error immediately aborts the recording with no utterance. -/
theorem device_error_counter_cumulative :
    (∀ (filt : BandpassFilter) (st : PyRecorder)
        (audio_frames : List (List Nat)),
      (calibrate_energy_threshold filt st audio_frames).device_error_count
        = st.device_error_count) ∧
    (∀ st : PyRecorder,
      (start_stream st).device_error_count = st.device_error_count) ∧
    (∀ st : PyRecorder,
      (stop_stream st).device_error_count = st.device_error_count) ∧
    (∀ (st : PyRecorder) (reads : List ReadResult),
      st.device_error_count
        ≤ (record_question st reads).1.device_error_count) ∧
    (∀ (rest : List ReadResult) (frames silent : Nat) (speaking : Bool)
        (total errs : Nat), max_device_errors ≤ errs →
      recordLoop (.readError :: rest) frames silent speaking total errs
        = (.noUtterance, errs + 1)) := by
  refine ⟨fun filt st audio_frames => ?_, start_stream_device_errors,
    fun st => rfl, fun st reads => ?_, ?_⟩
  · unfold calibrate_energy_threshold
    cases audio_frames.mapM (frameEnergy filt) <;> rfl
  · simp only [record_question, stop_stream]
    rw [start_stream_device_errors]
    exact recordLoop_errs_mono reads 0 0 false 0 st.device_error_count
  · intro rest f s sp t e h
    simp only [recordLoop]
    rw [if_pos (by omega)]

/-- Witness for C10: the counter survives calibration and stream
cycling unchanged, can only grow across a recording, and at the
exhausted budget a read error aborts at once. -/
theorem device_error_counter_cumulative_witness :
    (calibrate_energy_threshold idFilt PyRecorder.init []).device_error_count
        = PyRecorder.init.device_error_count ∧
    (start_stream PyRecorder.init).device_error_count
        = PyRecorder.init.device_error_count ∧
    (stop_stream PyRecorder.init).device_error_count
        = PyRecorder.init.device_error_count ∧
    PyRecorder.init.device_error_count
        ≤ (record_question PyRecorder.init [.readError]).1.device_error_count ∧
    max_device_errors ≤ 3 ∧
    recordLoop [.readError] 0 0 false 0 3 = (.noUtterance, 3 + 1) :=
  ⟨device_error_counter_cumulative.1 idFilt PyRecorder.init [],
    device_error_counter_cumulative.2.1 PyRecorder.init,
    device_error_counter_cumulative.2.2.1 PyRecorder.init,
    device_error_counter_cumulative.2.2.2.1 PyRecorder.init [.readError],
    by decide,
    device_error_counter_cumulative.2.2.2.2 [] 0 0 false 0 3 (by decide)⟩
